import Mathlib

set_option maxRecDepth 100000

deriving instance DecidableEq for Except

/-!
# Verification of the historical-returns build pipeline

Shallow embedding of `src/build_data.py` (the extraction / compounding /
alignment pipeline) and proofs of the specified properties.

Conventions of the embedding:
* Python `float` values are modelled as exact rationals `ℚ`; the numeric
  claims are about the exact arithmetic the formulas denote.
* Python `round(x, n)` is modelled as round-half-to-even at `n` decimal
  digits (Python's documented rounding mode), acting on `ℚ`.
* Strings are Lean `String`s; the handful of Python string operations the
  script uses (`strip`, `split(",")`, `startswith`, substring / char
  containment) are defined here over the character list so that every
  definition reduces in the kernel.
* Python `int(...)` / `float(...)` on the factor-file fields are modelled
  for the decimal formats those fields use: an optional sign, digits and an
  optional fractional part (scientific notation and special float literals
  never appear in the file and make the conversion fail in the model).
* The fatal errors the script can raise (the explicit `ValueError` for a
  missing monthly block, the `IndexError` from subscripting an empty
  `all_years`) are modelled with `Except String`.
-/

/-- Characters Python's default `str.strip()` removes (the input is ASCII). -/
def pyWhitespace (c : Char) : Bool :=
  c = ' ' ∨ c = '\t' ∨ c = '\n' ∨ c = '\r'

/-- Python `s.strip()`. -/
def pyStrip (s : String) : String :=
  ⟨((s.data.dropWhile pyWhitespace).reverse.dropWhile pyWhitespace).reverse⟩

/-- Auxiliary for `pySplitComma`: split a character list on a separator. -/
def splitCharAux (sep : Char) : List Char → List Char → List (List Char)
  | [], acc => [acc.reverse]
  | c :: cs, acc =>
    if c = sep then acc.reverse :: splitCharAux sep cs []
    else splitCharAux sep cs (c :: acc)

/-- Python `s.split(",")` (note: `"".split(",") == [""]`). -/
def pySplitComma (s : String) : List String :=
  (splitCharAux ',' s.data []).map fun cs => ⟨cs⟩

/-- Character-list prefix test (used for Python `startswith`). -/
def leadsWith : List Char → List Char → Bool
  | [], _ => true
  | _ :: _, [] => false
  | p :: ps, c :: cs => p = c && leadsWith ps cs

/-- Python `s.startswith(p)`. -/
def pyStartsWith (s p : String) : Bool :=
  leadsWith p.data s.data

/-- Python `p in s` for a single-character `p`. -/
def pyHasChar (s : String) (c : Char) : Bool :=
  s.data.contains c

/-- Substring containment, Python `p in s` for a multi-character `p`. -/
def subIn (p : List Char) : List Char → Bool
  | [] => p.isEmpty
  | c :: cs => leadsWith p (c :: cs) || subIn p cs

/-- Python `p in s` (substring test). -/
def pyHasSub (s p : String) : Bool :=
  subIn p.data s.data

/-- Digit-string value. -/
def digitsVal (cs : List Char) : Nat :=
  cs.foldl (fun n c => 10 * n + (c.toNat - 48)) 0

/-- Python `int(s)` on the year/month slices of the date token: succeeds on
a non-empty all-digit string (the slices of a well-formed `YYYYMM` token). -/
def parsePyNat (s : String) : Option Nat :=
  let cs := s.data
  if cs ≠ [] ∧ cs.all Char.isDigit then some (digitsVal cs) else none

/-- Powers of ten in `ℚ` (kept structurally recursive so that concrete
runs of the model reduce inside the kernel). -/
def pow10Q : Nat → ℚ
  | 0 => 1
  | n + 1 => 10 * pow10Q n

/-- Digit-string value as a rational (the same Horner fold as `digitsVal`,
carried out in `ℚ` so that concrete runs stay kernel-friendly). -/
def digitsValQ (cs : List Char) : ℚ :=
  cs.foldl (fun q c => 10 * q + ((c.toNat - 48 : Nat) : ℚ)) 0

/-- Fractional-part value: digits after the decimal point, as a rational. -/
def fracVal (cs : List Char) : ℚ :=
  digitsValQ cs / pow10Q cs.length

/-- Python `float(s.strip())` on the numeric fields of the factor file:
an optional sign, then digits with an optional decimal point, at least one
digit in total (the file's fields are plain decimals). -/
def parsePyFloat (s : String) : Option ℚ :=
  let t := (pyStrip s).data
  let signed : ℚ × List Char :=
    match t with
    | '-' :: r => (-1, r)
    | '+' :: r => (1, r)
    | r => (1, r)
  let ip := signed.2.takeWhile fun c => c ≠ '.'
  let rest := signed.2.dropWhile fun c => c ≠ '.'
  if ip.all Char.isDigit then
    match rest with
    | [] => if ip ≠ [] then some (signed.1 * digitsValQ ip) else none
    | _ :: fp =>
      if fp.all Char.isDigit ∧ (ip ≠ [] ∨ fp ≠ []) then
        some (signed.1 * (digitsValQ ip + fracVal fp))
      else none
  else none

/-- One parsed row of the Fama-French monthly factor table
(`records.append({...})`, src/build_data.py lines 68-71). -/
structure MonthlyObs where
  year : Nat
  month : Nat
  mkt_rf : ℚ
  smb : ℚ
  hml : ℚ
  rf : ℚ
deriving DecidableEq

/-- Derived column `df["mkt_total"] = df["mkt_rf"] + df["rf"]` (line 77). -/
def mkt_total (o : MonthlyObs) : ℚ := o.mkt_rf + o.rf

/-- Derived column `df["small_total"] = df["mkt_rf"] + df["rf"] + df["smb"]` (line 78). -/
def small_total (o : MonthlyObs) : ℚ := o.mkt_rf + o.rf + o.smb

/-- Derived column `df["tbill"] = df["rf"]` (line 79). -/
def tbill_total (o : MonthlyObs) : ℚ := o.rf

/-- The body of the row loop (src/build_data.py lines 55-73): strip the
line, split on commas, require at least 5 fields, a 6-character date token
whose two slices convert with `int`, and 4 fields that convert with
`float`; any failure skips the line. -/
def parseLine (line : String) : Option MonthlyObs :=
  let parts := pySplitComma (pyStrip line)
  if parts.length ≥ 5 then
    let ym := pyStrip (parts.getD 0 "")
    if ym.data.length = 6 then
      match parsePyNat ⟨ym.data.take 4⟩, parsePyNat ⟨ym.data.drop 4⟩,
            parsePyFloat (parts.getD 1 ""), parsePyFloat (parts.getD 2 ""),
            parsePyFloat (parts.getD 3 ""), parsePyFloat (parts.getD 4 "") with
      | some y, some m, some a, some b, some c, some d =>
        some ⟨y, m, a, b, c, d⟩
      | _, _, _, _, _, _ => none
    else none
  else none

/-- The row loop over `monthly_lines` appends exactly the accepted rows. -/
def parseBlock (ls : List String) : List MonthlyObs :=
  ls.filterMap parseLine

/-- Start-of-block test, src/build_data.py line 43:
`line.strip().startswith("192") and "," in line`. -/
def isStartLine (l : String) : Bool :=
  pyStartsWith (pyStrip l) "192" && pyHasChar l ','

/-- Terminator test, line 45: `line.strip() == "" or "Annual" in line`. -/
def isEndLine (l : String) : Bool :=
  pyStrip l = "" || pyHasSub l "Annual"

/-- The boundary-scanning loop, src/build_data.py lines 40-47.  `i` is the
index of the head of the remaining lines, `s` the current `start_idx`
(`none` = Python `None`).  The end test reproduces Python's truthiness
check `if start_idx and ...`: it also fails when `start_idx == 0`. -/
def scanBounds : Nat → Option Nat → List String → Option Nat × Option Nat
  | _, s, [] => (s, none)
  | i, s, l :: ls =>
    let s' := if s.isNone && isStartLine l then some i else s
    let hit : Bool :=
      match s' with
      | some si => decide (si ≠ 0) && isEndLine l && decide (i > si + 10)
      | none => false
    if hit then (s', some i) else scanBounds (i + 1) s' ls

/-- Values of `start_idx` and `end_idx` after the scanning loop. -/
def findBounds (lines : List String) : Option Nat × Option Nat :=
  scanBounds 0 none lines

/-- Slice `lines[start_idx : end_idx if end_idx else len(lines)]` with the
preceding `if start_idx is None: raise ValueError(...)` (lines 49-53). -/
def monthlyLines (lines : List String) : Except String (List String) :=
  match findBounds lines with
  | (none, _) => .error "Could not find monthly data start in FF CSV"
  | (some s, e) =>
    let stop := match e with
      | some ei => if ei ≠ 0 then ei else lines.length
      | none => lines.length
    .ok ((lines.drop s).take (stop - s))

/-- The pure text-processing core of `download_french_factors`
(src/build_data.py lines 39-75): boundary detection then row extraction.
The network fetch and unzip that feed it raw text are external
collaborators; the raw text itself is the input here, already split on
newlines as by `raw.split("\n")`. -/
def download_french_factors (lines : List String) : Except String (List MonthlyObs) :=
  (monthlyLines lines).map parseBlock

/-- Round-half-to-even to an integer (Python's `round` tie-breaking).
With `f = ⌊q⌋` and remainder `m = q.num mod q.den` (so the fractional part
of `q` is `m / q.den`): take `f` when the fractional part is below 1/2,
`f + 1` when above, and the even neighbour on an exact tie. -/
def roundHalfEven (q : ℚ) : ℤ :=
  let f := Int.ediv q.num q.den
  let m := Int.emod q.num q.den
  if 2 * m < (q.den : ℤ) then f
  else if (q.den : ℤ) < 2 * m then f + 1
  else if f % 2 = 0 then f else f + 1

/-- Python `round(x, d)` on the exact-rational model of the float `x`:
scale by `10 ^ d`, round half-to-even to an integer, scale back. -/
def pyRound (d : Nat) (x : ℚ) : ℚ :=
  Rat.divInt (roundHalfEven (x * pow10Q d)) (pow10Q d).num

/-- Python `sorted(set(l))`: the distinct elements of `l` in ascending
order (deduplicate, then sort). -/
def pySortedSet (l : List Nat) : List Nat :=
  l.dedup.insertionSort (fun a b => a ≤ b)

/-- The group keys of `df.groupby("year")`: pandas iterates the distinct
year keys in ascending order. -/
def yearKeys (obs : List MonthlyObs) : List Nat :=
  pySortedSet (obs.map fun o => o.year)

/-- The rows of one `groupby("year")` group, in source order. -/
def groupOf (obs : List MonthlyObs) (y : Nat) : List MonthlyObs :=
  obs.filter fun o => o.year = y

/-- The loop body of `monthly_to_annual` for one qualifying group
(src/build_data.py lines 91-94): `cum = 1.0; for r in group[col].values:
cum *= (1 + r / 100); round((cum - 1) * 100, 2)`. -/
def annualValue (g : List MonthlyObs) (col : MonthlyObs → ℚ) : ℚ :=
  pyRound 2 ((g.foldl (fun cum o => cum * (1 + col o / 100)) 1 - 1) * 100)

/-- `monthly_to_annual` with the coverage threshold as a parameter (the
script hardcodes 11; the spec's testable property also exercises a
lowered threshold).  The result is the `annual` dict as an association
list in key-insertion (ascending year) order. -/
def monthlyToAnnualT (t : Nat) (obs : List MonthlyObs) (col : MonthlyObs → ℚ) :
    List (Nat × ℚ) :=
  (yearKeys obs).filterMap fun y =>
    let g := groupOf obs y
    if g.length < t then none else some (y, annualValue g col)

/-- Function `monthly_to_annual(df, col)` (src/build_data.py lines 85-95). -/
def monthly_to_annual (obs : List MonthlyObs) (col : MonthlyObs → ℚ) :
    List (Nat × ℚ) :=
  monthlyToAnnualT 11 obs col

/-- The keys of an annual-series dict. -/
def keysOf (s : List (Nat × ℚ)) : List Nat :=
  s.map Prod.fst

/-- Intersection `sorted(set(large_stocks.keys()) & set(bonds.keys()) &
set(inflation.keys()))` (src/build_data.py line 177): the ascending list
of years present in all three of the intersected dicts. -/
def allYears (large bonds infl : List (Nat × ℚ)) : List Nat :=
  pySortedSet ((keysOf large).filter fun y =>
    (keysOf bonds).contains y && (keysOf infl).contains y)

/-- Chronological order used by `ff.sort_values(["year", "month"])`. -/
def obsLe (a b : MonthlyObs) : Prop :=
  a.year < b.year ∨ (a.year = b.year ∧ a.month ≤ b.month)

instance : DecidableRel obsLe := fun a b => by
  unfold obsLe; infer_instance

/-- Sorted rows `ff_sorted = ff.sort_values(["year", "month"])` (line 181). -/
def sortMonthly (obs : List MonthlyObs) : List MonthlyObs :=
  obs.insertionSort obsLe

/-- Two-digit zero-padded month, Python `f"{month:02d}"`. -/
def pad2 (m : Nat) : String :=
  if m < 10 then "0" ++ toString m else toString m

/-- The date label built on line 186: `f"{year}-{month:02d}"`. -/
def ymLabel (o : MonthlyObs) : String :=
  toString o.year ++ "-" ++ pad2 o.month

/-- Projection `[series.get(y, None) for y in all_years]` (lines 206, 212, 218, 224,
230); the dicts built here have distinct keys, so `List.lookup` agrees
with the Python dict lookup. -/
def projectSeries (s : List (Nat × ℚ)) (years : List Nat) : List (Option ℚ) :=
  years.map fun y => s.lookup y

/-- The value-carrying shape of the output document (src/build_data.py
lines 193-233); the static metadata strings and the generation timestamp
are omitted, every sequence of numbers is kept. -/
structure OutputDoc where
  years : List Nat
  monthlyDates : List String
  monthlyStocks : List ℚ
  monthlyTbills : List ℚ
  largeReturns : List (Option ℚ)
  smallReturns : List (Option ℚ)
  bondReturns : List (Option ℚ)
  tbillReturns : List (Option ℚ)
  inflReturns : List (Option ℚ)
deriving DecidableEq

/-- Steps 2-5 of `main` (src/build_data.py lines 168-233), given the
parsed monthly observations and the two static tables: compound the three
derived series, take the year axis, build the monthly arrays from the
sorted rows with `round(..., 3)`, and project all five series onto the
axis. -/
def buildOutput (obs : List MonthlyObs) (bonds infl : List (Nat × ℚ)) :
    OutputDoc :=
  let large := monthly_to_annual obs mkt_total
  let small := monthly_to_annual obs small_total
  let tb := monthly_to_annual obs tbill_total
  let ys := allYears large bonds infl
  let sorted := sortMonthly obs
  { years := ys
    monthlyDates := sorted.map ymLabel
    monthlyStocks := sorted.map fun o => pyRound 3 (mkt_total o)
    monthlyTbills := sorted.map fun o => pyRound 3 (tbill_total o)
    largeReturns := projectSeries large ys
    smallReturns := projectSeries small ys
    bondReturns := projectSeries bonds ys
    tbillReturns := projectSeries tb ys
    inflReturns := projectSeries infl ys }

/-- Function `main` (src/build_data.py lines 161-248) from the decoded factor-file
lines and the two static tables to the written artifact.  A missing
monthly block propagates the parser ValueError; line 178 subscripts
`all_years[0]`, which raises IndexError when the intersection is empty,
before any of the output is assembled or written. -/
def mainRun (lines : List String) (bonds infl : List (Nat × ℚ)) :
    Except String OutputDoc :=
  match download_french_factors lines with
  | .error e => .error e
  | .ok obs =>
    if allYears (monthly_to_annual obs mkt_total) bonds infl = [] then
      .error "IndexError: list index out of range"
    else
      .ok (buildOutput obs bonds infl)

/-! ## Spec-side definitions and concrete inputs used by the claims -/

/-- Monthly observations for a single 3-month year carrying percentage
returns 10, -5 and 2 in the market-total column. -/
def demoObs3 : List MonthlyObs :=
  [⟨2000, 1, 10, 0, 0, 0⟩, ⟨2000, 2, -5, 0, 0, 0⟩, ⟨2000, 3, 2, 0, 0, 0⟩]

/-- Monthly observations with 11 months of 1926 and 10 months of 1927. -/
def demoObs21 : List MonthlyObs :=
  ((List.range 11).map fun m => ⟨1926, m + 1, 1, 0, 0, 0⟩) ++
  ((List.range 10).map fun m => ⟨1927, m + 1, 1, 0, 0, 0⟩)

/-- The start condition as the claim states it: the stripped line starts
with "19" or "20" and the line contains a comma (written from the spec's
words, for comparison with the code's `isStartLine`). -/
def specStartLine (l : String) : Bool :=
  (pyStartsWith (pyStrip l) "19" || pyStartsWith (pyStrip l) "20") &&
    pyHasChar l ','

/-- The end-of-block rule as the spec states it: the first line strictly
more than the minimum run-length (10) past the start that is blank or
carries the annual-section marker (written from the spec's words, for
comparison with the code's scan). -/
def specEndIdx (lines : List String) (start : Nat) : Option Nat :=
  (List.range lines.length).find? fun i =>
    decide (start + 10 < i) && isEndLine (lines.getD i "")

/-- Input whose start line sits at index 0, with a blank line at index 12
and one more well-formed row after it. -/
def c5Lines : List String :=
  ["192607,1,2,3,4", "x", "x", "x", "x", "x", "x", "x", "x", "x", "x", "x",
   "", "192608,5,6,7,8"]

/-- The row-acceptance condition of the claim: at least 5 comma-separated
fields, a 6-character date token splitting into year and month numbers,
and 4 numeric fields. -/
def lineAccepted (line : String) : Prop :=
  5 ≤ (pySplitComma (pyStrip line)).length ∧
  (pyStrip ((pySplitComma (pyStrip line)).getD 0 "")).data.length = 6 ∧
  (parsePyNat ⟨(pyStrip ((pySplitComma (pyStrip line)).getD 0 "")).data.take 4⟩).isSome = true ∧
  (parsePyNat ⟨(pyStrip ((pySplitComma (pyStrip line)).getD 0 "")).data.drop 4⟩).isSome = true ∧
  (parsePyFloat ((pySplitComma (pyStrip line)).getD 1 "")).isSome = true ∧
  (parsePyFloat ((pySplitComma (pyStrip line)).getD 2 "")).isSome = true ∧
  (parsePyFloat ((pySplitComma (pyStrip line)).getD 3 "")).isSome = true ∧
  (parsePyFloat ((pySplitComma (pyStrip line)).getD 4 "")).isSome = true

/-- Nine distinct months of 1926 with zero returns. -/
def c7Pre : List String :=
  ["192601,0,0,0,0", "192602,0,0,0,0", "192603,0,0,0,0", "192604,0,0,0,0",
   "192605,0,0,0,0", "192606,0,0,0,0", "192607,0,0,0,0", "192608,0,0,0,0",
   "192609,0,0,0,0"]

/-- Twelve well-formed monthly rows covering all of 1926. -/
def demoLines12 : List String :=
  ["192601,0,0,0,0", "192602,0,0,0,0", "192603,0,0,0,0", "192604,0,0,0,0",
   "192605,0,0,0,0", "192606,0,0,0,0", "192607,0,0,0,0", "192608,0,0,0,0",
   "192609,0,0,0,0", "192610,0,0,0,0", "192611,0,0,0,0", "192612,0,0,0,0"]

/-! ## Supporting lemmas -/


theorem mem_pySortedSet {l : List Nat} {y : Nat} :
    y ∈ pySortedSet l ↔ y ∈ l := by
  unfold pySortedSet
  rw [List.mem_insertionSort, List.mem_dedup]

theorem nodup_pySortedSet (l : List Nat) : (pySortedSet l).Nodup :=
  (List.perm_insertionSort _ _).symm.nodup (List.nodup_dedup l)

theorem sorted_pySortedSet (l : List Nat) :
    List.Sorted (· < ·) (pySortedSet l) :=
  (List.sorted_insertionSort _ _).lt_of_le (nodup_pySortedSet l)

theorem mem_yearKeys {obs : List MonthlyObs} {y : Nat} :
    y ∈ yearKeys obs ↔ y ∈ obs.map fun o => o.year := by
  unfold yearKeys
  exact mem_pySortedSet

/-- Looking a key up in an association list built over distinct keys by an
optional per-key value. -/
theorem lookup_filterMap_option (ks : List Nat) (hnd : ks.Nodup)
    (opt : Nat → Option ℚ) (y : Nat) :
    (ks.filterMap fun k => (opt k).map fun v => (k, v)).lookup y =
      if y ∈ ks then opt y else none := by
  induction ks with
  | nil => simp
  | cons k ks ih =>
    have hk : k ∉ ks := (List.nodup_cons.mp hnd).1
    have ih' := ih (List.nodup_cons.mp hnd).2
    rw [List.filterMap_cons]
    cases hko : opt k with
    | none =>
      simp only [Option.map_none']
      rw [ih']
      by_cases hyk : y = k
      · subst hyk
        simp [hk, hko]
      · simp [hyk]
    | some v =>
      simp only [Option.map_some']
      by_cases hyk : y = k
      · subst hyk
        simp [List.lookup_cons, hko]
      · rw [List.lookup_cons, ih']
        simp [hyk, beq_false_of_ne hyk]

/-- The dict produced by `monthly_to_annual` (threshold `t`), looked up at
a year: present exactly when the year occurs and meets the coverage
threshold, and then carrying the rounded compound value of its group. -/
theorem lookup_monthlyToAnnualT (t : Nat) (obs : List MonthlyObs)
    (col : MonthlyObs → ℚ) (y : Nat) :
    (monthlyToAnnualT t obs col).lookup y =
      if y ∈ obs.map (fun o => o.year) ∧ t ≤ (groupOf obs y).length then
        some (annualValue (groupOf obs y) col)
      else none := by
  unfold monthlyToAnnualT
  have h := lookup_filterMap_option (yearKeys obs)
    ((List.perm_insertionSort _ _).symm.nodup (List.nodup_dedup _))
    (fun k => if (groupOf obs k).length < t then none
              else some (annualValue (groupOf obs k) col)) y
  have hfun : (yearKeys obs).filterMap
      (fun k => ((fun k => if (groupOf obs k).length < t then none
              else some (annualValue (groupOf obs k) col)) k).map fun v => (k, v)) =
      (yearKeys obs).filterMap (fun y =>
        if (groupOf obs y).length < t then none
        else some (y, annualValue (groupOf obs y) col)) := by
    apply List.filterMap_congr
    intro x _
    by_cases hx : (groupOf obs x).length < t <;> simp [hx]
  rw [← hfun, h]
  by_cases hmem : y ∈ yearKeys obs
  · rw [if_pos hmem]
    by_cases hcov : (groupOf obs y).length < t
    · rw [if_pos hcov, if_neg]
      intro hc
      exact absurd hc.2 (Nat.not_le.mpr hcov)
    · rw [if_neg hcov, if_pos]
      exact ⟨mem_yearKeys.mp hmem, Nat.le_of_not_lt hcov⟩
  · rw [if_neg hmem, if_neg]
    intro hc
    exact hmem (mem_yearKeys.mpr hc.1)

/-- The compounding loop is the product of the per-month growth factors. -/
theorem foldl_compound (g : List MonthlyObs) (col : MonthlyObs → ℚ) :
    g.foldl (fun cum o => cum * (1 + col o / 100)) 1 =
      (g.map fun o => 1 + col o / 100).prod := by
  rw [List.prod_eq_foldl, List.foldl_map]

/-- The key list of a compounded series is the ascending list of years
meeting the coverage threshold; in particular it does not depend on the
column being compounded. -/
theorem keysOf_eq_filter (t : Nat) (obs : List MonthlyObs)
    (col : MonthlyObs → ℚ) :
    keysOf (monthlyToAnnualT t obs col) =
      (yearKeys obs).filter fun y => decide (t ≤ (groupOf obs y).length) := by
  unfold keysOf monthlyToAnnualT
  induction yearKeys obs with
  | nil => rfl
  | cons k ks ih =>
    rw [List.filterMap_cons, List.filter_cons]
    by_cases hk : (groupOf obs k).length < t
    · have h1 : (if (groupOf obs k).length < t then none
          else some (k, annualValue (groupOf obs k) col)) = none := if_pos hk
      have h2 : decide (t ≤ (groupOf obs k).length) = false := by
        simpa using Nat.not_le.mpr hk
      rw [show ((let g := groupOf obs k;
          if g.length < t then none else some (k, annualValue g col))) = none from h1]
      rw [h2]
      simpa using ih
    · have h1 : (if (groupOf obs k).length < t then none
          else some (k, annualValue (groupOf obs k) col)) =
          some (k, annualValue (groupOf obs k) col) := if_neg hk
      have h2 : decide (t ≤ (groupOf obs k).length) = true := by
        simpa using Nat.le_of_not_lt hk
      rw [show ((let g := groupOf obs k;
          if g.length < t then none else some (k, annualValue g col))) =
          some (k, annualValue (groupOf obs k) col) from h1]
      rw [h2]
      simpa using ih

theorem keysOf_monthlyToAnnualT (t : Nat) (obs : List MonthlyObs)
    (c₁ c₂ : MonthlyObs → ℚ) :
    keysOf (monthlyToAnnualT t obs c₁) = keysOf (monthlyToAnnualT t obs c₂) := by
  rw [keysOf_eq_filter, keysOf_eq_filter]

/-- Membership in the year-key set of a compounded series. -/
theorem mem_keysOf_monthlyToAnnualT {t : Nat} {obs : List MonthlyObs}
    {col : MonthlyObs → ℚ} {y : Nat} :
    y ∈ keysOf (monthlyToAnnualT t obs col) ↔
      y ∈ (obs.map fun o => o.year) ∧ t ≤ (groupOf obs y).length := by
  rw [keysOf_eq_filter, List.mem_filter]
  rw [mem_yearKeys]
  simp


/-- Once `start_idx` is set the scanning loop never changes it. -/
theorem scanBounds_fst_some (ls : List String) (i k : Nat) :
    (scanBounds i (some k) ls).1 = some k := by
  induction ls generalizing i with
  | nil => rfl
  | cons l ls ih =>
    simp only [scanBounds, Option.isNone_some, Bool.false_and, Bool.false_eq_true,
      if_false]
    split
    · rfl
    · exact ih (i + 1)

/-- The scan reports no start index exactly when no line passes the start
test. -/
theorem scanBounds_fst_none (ls : List String) (i : Nat) :
    ((scanBounds i none ls).1 = none ↔ ∀ l ∈ ls, isStartLine l = false) := by
  induction ls generalizing i with
  | nil => simp [scanBounds]
  | cons l ls ih =>
    by_cases hl : isStartLine l
    · have hf : (scanBounds i none (l :: ls)).1 = some i := by
        simp only [scanBounds, Option.isNone_none, Bool.true_and, hl, if_true]
        have hgt : decide (i > i + 10) = false := by
          simp
        rw [hgt]
        simp only [Bool.and_false, Bool.false_eq_true, if_false]
        exact scanBounds_fst_some ls (i + 1) i
      simp [hf, hl]
    · have hstep : scanBounds i none (l :: ls) = scanBounds (i + 1) none ls := by
        simp [scanBounds, hl]
      rw [hstep, ih (i + 1)]
      simp [hl]

/-- A reported start index is the first line passing the start test. -/
theorem scanBounds_fst_first (ls : List String) (i j : Nat)
    (h : (scanBounds i none ls).1 = some j) :
    ∃ k, k < ls.length ∧ j = i + k ∧ isStartLine (ls.getD k "") = true ∧
      ∀ m, m < k → isStartLine (ls.getD m "") = false := by
  induction ls generalizing i with
  | nil => cases h
  | cons l ls ih =>
    by_cases hl : isStartLine l
    · have hf : (scanBounds i none (l :: ls)).1 = some i := by
        simp only [scanBounds, Option.isNone_none, Bool.true_and, hl, if_true]
        have hgt : decide (i > i + 10) = false := by
          simp
        rw [hgt]
        simp only [Bool.and_false, Bool.false_eq_true, if_false]
        exact scanBounds_fst_some ls (i + 1) i
      rw [hf] at h
      cases h
      exact ⟨0, Nat.zero_lt_succ _, rfl, hl, fun m hm => absurd hm (Nat.not_lt_zero m)⟩
    · have hstep : scanBounds i none (l :: ls) = scanBounds (i + 1) none ls := by
        simp [scanBounds, hl]
      rw [hstep] at h
      obtain ⟨k, hk, hj, hs, hall⟩ := ih (i + 1) h
      refine ⟨k + 1, Nat.succ_lt_succ hk, by omega, hs, ?_⟩
      intro m hm
      cases m with
      | zero => simpa using hl
      | succ m => exact hall m (Nat.lt_of_succ_lt_succ hm)

/-- A line contributes an observation exactly when it passes all of the
acceptance checks. -/
theorem parseLine_isSome_iff (line : String) :
    (parseLine line).isSome = true ↔ lineAccepted line := by
  unfold parseLine lineAccepted
  by_cases h5 : (pySplitComma (pyStrip line)).length ≥ 5
  · rw [if_pos h5]
    by_cases h6 :
        (pyStrip ((pySplitComma (pyStrip line)).getD 0 "")).data.length = 6
    · have h6n : (pyStrip ((pySplitComma (pyStrip line))[0]?.getD "")).length
          = 6 := by simpa using h6
      rw [if_pos h6]
      cases hy : parsePyNat ⟨(pyStrip ((pySplitComma (pyStrip line)).getD 0 "")).data.take 4⟩ <;>
        cases hm : parsePyNat ⟨(pyStrip ((pySplitComma (pyStrip line)).getD 0 "")).data.drop 4⟩ <;>
          cases h1 : parsePyFloat ((pySplitComma (pyStrip line)).getD 1 "") <;>
            cases h2 : parsePyFloat ((pySplitComma (pyStrip line)).getD 2 "") <;>
              cases h3 : parsePyFloat ((pySplitComma (pyStrip line)).getD 3 "") <;>
                cases h4 : parsePyFloat ((pySplitComma (pyStrip line)).getD 4 "") <;>
                  simp [h5, h6, h6n]
    · have h6n : ¬ ((pyStrip ((pySplitComma (pyStrip line))[0]?.getD "")).length
          = 6) := by simpa using h6
      rw [if_neg h6]
      simp [h5, h6n]
  · rw [if_neg h5]
    simp [h5]

/-- A block whose every line is well-formed parses without loss. -/
theorem parseBlock_all_some (ls : List String)
    (h : ∀ l ∈ ls, (parseLine l).isSome = true) :
    (parseBlock ls).length = ls.length := by
  induction ls with
  | nil => rfl
  | cons l ls ih =>
    unfold parseBlock
    cases hl : parseLine l with
    | none =>
      have := h l (List.mem_cons_self l ls)
      rw [hl] at this
      cases this
    | some o =>
      rw [List.filterMap_cons_some hl]
      have := ih fun x hx => h x (List.mem_cons_of_mem l hx)
      unfold parseBlock at this
      simp [this]

/-! ## Claim C1: the aligned year axis -/

/-- C1: the year axis built by the pipeline (line 177 intersects the
large-stocks, bonds and inflation dicts) is exactly the set intersection
of the year keys of all five annual series — large stocks, small stocks,
long government bonds, bills, inflation — sorted strictly ascending; a
year missing from even one of the five series never appears.  The two
series the code does not mention in the intersection (small stocks and
bills) are compounded from the same monthly observations with the same
coverage rule, so their key sets coincide with that of large stocks. -/
theorem year_axis_is_five_series_intersection (obs : List MonthlyObs)
    (bonds infl : List (Nat × ℚ)) :
    List.Sorted (· < ·)
      (allYears (monthly_to_annual obs mkt_total) bonds infl) ∧
    ∀ y, y ∈ allYears (monthly_to_annual obs mkt_total) bonds infl ↔
      (y ∈ keysOf (monthly_to_annual obs mkt_total) ∧
       y ∈ keysOf (monthly_to_annual obs small_total) ∧
       y ∈ keysOf bonds ∧
       y ∈ keysOf (monthly_to_annual obs tbill_total) ∧
       y ∈ keysOf infl) := by
  have hsmall : keysOf (monthly_to_annual obs mkt_total) =
      keysOf (monthly_to_annual obs small_total) :=
    keysOf_monthlyToAnnualT 11 obs mkt_total small_total
  have htb : keysOf (monthly_to_annual obs mkt_total) =
      keysOf (monthly_to_annual obs tbill_total) :=
    keysOf_monthlyToAnnualT 11 obs mkt_total tbill_total
  refine ⟨sorted_pySortedSet _, fun y => ?_⟩
  unfold allYears
  rw [mem_pySortedSet, List.mem_filter]
  simp only [Bool.and_eq_true, List.contains, List.elem_iff]
  constructor
  · rintro ⟨hl, hb, hi⟩
    exact ⟨hl, hsmall ▸ hl, hb, htb ▸ hl, hi⟩
  · rintro ⟨hl, -, hb, -, hi⟩
    exact ⟨hl, hb, hi⟩

/-! ## Claim C2: the compounding formula -/

/-- C2, counterexample: with the coverage threshold lowered to 3, monthly
returns [10, -5, 2] compound to 6.59 exactly — not the 6.60 the claim
asserts: (1.10)(0.95)(1.02) = 1.0659, so the annual return is 6.59 and no
rounding ambiguity arises. -/
theorem compound_example_not_660 :
    monthlyToAnnualT 3 demoObs3 mkt_total = [(2000, 659/100)] ∧
    (659 : ℚ)/100 ≠ 66/10 := by
  with_unfolding_all decide

/-- C2, amended: for every qualifying year the compounded annual return is
`(Π (1 + r_i/100) − 1) × 100` over that year's monthly returns, rounded to
2 decimal places by Python's `round` (half-to-even at exact ties, which
agrees with half-away-from-zero away from ties); for monthly returns
[10, -5, 2] under threshold 3 the value is 6.59. -/
theorem annual_return_is_rounded_compound (t : Nat) (obs : List MonthlyObs)
    (col : MonthlyObs → ℚ) (y : Nat)
    (hy : y ∈ obs.map fun o => o.year)
    (hcov : t ≤ (groupOf obs y).length) :
    (monthlyToAnnualT t obs col).lookup y =
      some (pyRound 2
        ((((groupOf obs y).map fun o => 1 + col o / 100).prod - 1) * 100)) := by
  rw [lookup_monthlyToAnnualT, if_pos ⟨hy, hcov⟩]
  unfold annualValue
  rw [foldl_compound]

/-- C2, witness: the amended theorem applied to the spec's own test vector
evaluates to 6.59. -/
theorem annual_return_witness :
    (monthlyToAnnualT 3 demoObs3 mkt_total).lookup 2000 = some (659/100) := by
  have h := annual_return_is_rounded_compound 3 demoObs3 mkt_total 2000
    (by with_unfolding_all decide) (by with_unfolding_all decide)
  rw [h]
  with_unfolding_all decide

/-! ## Claim C3: the 11-month coverage rule -/

/-- C3: a year appears in the compounded annual series exactly when it has
at least 11 monthly observations; on an input holding an 11-month year
(1926) and a 10-month year (1927), only 1926 survives — the 10-month year
is entirely absent, not zero-filled. -/
theorem coverage_rule (obs : List MonthlyObs) (col : MonthlyObs → ℚ)
    (y : Nat) :
    (y ∈ keysOf (monthly_to_annual obs col) ↔
      y ∈ (obs.map fun o => o.year) ∧ 11 ≤ (groupOf obs y).length) ∧
    keysOf (monthly_to_annual demoObs21 mkt_total) = [1926] := by
  refine ⟨mem_keysOf_monthlyToAnnualT, ?_⟩
  with_unfolding_all decide

/-! ## Claim C8: shape invariants of the assembled document -/

/-- C8: in every assembled output document each of the five assets has a
returns sequence exactly as long as the year axis, and the three monthly
arrays (dates, stocks, bills) all have equal length. -/
theorem shape_invariant (obs : List MonthlyObs) (bonds infl : List (Nat × ℚ)) :
    ((buildOutput obs bonds infl).largeReturns.length =
        (buildOutput obs bonds infl).years.length ∧
     (buildOutput obs bonds infl).smallReturns.length =
        (buildOutput obs bonds infl).years.length ∧
     (buildOutput obs bonds infl).bondReturns.length =
        (buildOutput obs bonds infl).years.length ∧
     (buildOutput obs bonds infl).tbillReturns.length =
        (buildOutput obs bonds infl).years.length ∧
     (buildOutput obs bonds infl).inflReturns.length =
        (buildOutput obs bonds infl).years.length) ∧
    ((buildOutput obs bonds infl).monthlyDates.length =
        (buildOutput obs bonds infl).monthlyStocks.length ∧
     (buildOutput obs bonds infl).monthlyStocks.length =
        (buildOutput obs bonds infl).monthlyTbills.length) := by
  unfold buildOutput projectSeries
  simp

/-! ## Claim C9: an empty year axis aborts the run -/

/-- C9: when the intersection year axis is empty the run stops with the
IndexError raised by the year-range summary (line 178 subscripts
`all_years[0]`) before the artifact is assembled or written; accordingly a
successfully produced document never has an empty `years` axis. -/
theorem empty_axis_aborts (lines : List String) (bonds infl : List (Nat × ℚ)) :
    (∀ obs, download_french_factors lines = .ok obs →
      allYears (monthly_to_annual obs mkt_total) bonds infl = [] →
      mainRun lines bonds infl = .error "IndexError: list index out of range") ∧
    (∀ doc, mainRun lines bonds infl = .ok doc → doc.years ≠ []) := by
  constructor
  · intro obs hok hempty
    unfold mainRun
    rw [hok]
    simp [hempty]
  · intro doc hok
    unfold mainRun at hok
    cases hdl : download_french_factors lines with
    | error e =>
      rw [hdl] at hok
      cases hok
    | ok obs =>
      rw [hdl] at hok
      replace hok : (if allYears (monthly_to_annual obs mkt_total) bonds infl
            = [] then
          (Except.error "IndexError: list index out of range" :
            Except String OutputDoc)
        else .ok (buildOutput obs bonds infl)) = .ok doc := hok
      by_cases hys : allYears (monthly_to_annual obs mkt_total) bonds infl = []
      · rw [if_pos hys] at hok
        cases hok
      · rw [if_neg hys] at hok
        have hdoc : buildOutput obs bonds infl = doc := by
          injection hok
        intro hcon
        apply hys
        rw [show allYears (monthly_to_annual obs mkt_total) bonds infl =
          (buildOutput obs bonds infl).years from rfl, hdoc]
        exact hcon

/-! ## Claim C10: the monthly arrays are rounded to 3 decimals -/

/-- C10: each entry of the output's monthly stocks and bills arrays is the
corresponding parsed monthly total rounded to exactly 3 decimal places
(`round(float(row[...]), 3)`, lines 188-189) — an extra transformation
that really changes values: a parsable row with total 0.0625 is stored as
0.062 (an exact tie, broken to the even neighbour as Python's round
does). -/
theorem monthly_values_are_rounded (obs : List MonthlyObs)
    (bonds infl : List (Nat × ℚ)) :
    (∀ i : Nat, ((buildOutput obs bonds infl).monthlyStocks.get? i =
        ((sortMonthly obs).get? i).map fun o => pyRound 3 (mkt_total o)) ∧
      ((buildOutput obs bonds infl).monthlyTbills.get? i =
        ((sortMonthly obs).get? i).map fun o => pyRound 3 (tbill_total o))) ∧
    parseLine "192601,0.0625,0,0,0" =
      some ⟨1926, 1, 1/16, 0, 0, 0⟩ ∧
    pyRound 3 (mkt_total ⟨1926, 1, 1/16, 0, 0, 0⟩) = 62/1000 ∧
    (62 : ℚ)/1000 ≠ 1/16 := by
  refine ⟨fun i => ⟨?_, ?_⟩, by with_unfolding_all decide,
    by with_unfolding_all decide, by with_unfolding_all decide⟩
  · unfold buildOutput
    simp
  · unfold buildOutput
    simp

/-! ## Claim C4: locating the start of the monthly block -/

/-- C4, counterexample: the claim's start condition (leading token starts
with "19" or "20", at least one delimiter) accepts the line
"200001,1.0,2.0,3.0,4.0", yet the code (line 43 tests
`startswith("192")`) finds no start line there and raises the fatal
boundary error. -/
theorem start_boundary_countereg :
    specStartLine "200001,1.0,2.0,3.0,4.0" = true ∧
    download_french_factors ["200001,1.0,2.0,3.0,4.0"] =
      .error "Could not find monthly data start in FF CSV" := by
  with_unfolding_all decide

/-- C4, amended: the parser locates the start of the monthly block at the
first line whose stripped text starts with "192" and which contains a
comma, and it raises the fatal boundary error if and only if no line of
the input satisfies that condition. -/
theorem start_boundary (lines : List String) :
    (download_french_factors lines =
        .error "Could not find monthly data start in FF CSV" ↔
      ∀ l ∈ lines, isStartLine l = false) ∧
    ∀ j, (findBounds lines).1 = some j →
      j < lines.length ∧ isStartLine (lines.getD j "") = true ∧
      ∀ m, m < j → isStartLine (lines.getD m "") = false := by
  constructor
  · rw [← scanBounds_fst_none lines 0]
    unfold download_french_factors monthlyLines findBounds
    rcases hfb : scanBounds 0 none lines with ⟨s, e⟩
    cases s with
    | none => simp [Except.map]
    | some v => simp [Except.map]
  · intro j h
    obtain ⟨k, hk, hj, hs, hall⟩ := scanBounds_fst_first lines 0 j h
    subst hj
    simp only [Nat.zero_add]
    exact ⟨hk, hs, hall⟩

/-- C4, witness: on a two-line input whose second line is a factor row,
the reported start index 1 passes the start test and the header line
before it does not. -/
theorem start_boundary_witness :
    isStartLine (["Header line", "192607,1,2,3,4"].getD 1 "") = true ∧
    isStartLine (["Header line", "192607,1,2,3,4"].getD 0 "") = false := by
  have h := (start_boundary ["Header line", "192607,1,2,3,4"]).2 1
    (by with_unfolding_all decide)
  exact ⟨h.2.1, h.2.2 0 (by decide)⟩

/-! ## Claim C5: locating the end of the monthly block -/

/-- C5: with the start line at index 0 the end scan never fires — line 45
guards with the truthiness test `if start_idx` (unlike the `is None` test
used for the start on line 43), which is false at index 0 — so the block
runs to the end of the input and the row after the blank line is parsed,
while the claim places the end at the blank line at index 12
(`specEndIdx`), which would exclude that row. -/
theorem end_boundary_truthiness :
    findBounds c5Lines = (some 0, none) ∧
    specEndIdx c5Lines 0 = some 12 ∧
    download_french_factors c5Lines =
      .ok [⟨1926, 7, 1, 2, 3, 4⟩, ⟨1926, 8, 5, 6, 7, 8⟩] := by
  with_unfolding_all decide

/-! ## Claim C6: row acceptance and silent skipping -/

/-- C6: a line is accepted as an observation if and only if it has at
least 5 comma-separated fields, a 6-character date token decomposing into
year and month, and 4 numeric fields; a malformed row in the middle of a
block is silently dropped, so a block of n rows with one malformed row
yields n-1 observations and never a parse failure. -/
theorem malformed_rows_skipped (pre post : List String) (bad : String)
    (hbad : parseLine bad = none) :
    (∀ line, (parseLine line).isSome = true ↔ lineAccepted line) ∧
    parseBlock (pre ++ bad :: post) = parseBlock pre ++ parseBlock post ∧
    ((∀ l ∈ pre ++ post, (parseLine l).isSome = true) →
      (parseBlock (pre ++ bad :: post)).length = pre.length + post.length) := by
  have hsplit : parseBlock (pre ++ bad :: post) =
      parseBlock pre ++ parseBlock post := by
    unfold parseBlock
    rw [List.filterMap_append, List.filterMap_cons_none hbad]
  refine ⟨parseLine_isSome_iff, hsplit, fun hall => ?_⟩
  rw [hsplit]
  rw [List.length_append]
  have hp : (parseBlock pre).length = pre.length :=
    parseBlock_all_some pre fun l hl =>
      hall l (List.mem_append_left _ hl)
  have hq : (parseBlock post).length = post.length :=
    parseBlock_all_some post fun l hl =>
      hall l (List.mem_append_right _ hl)
  rw [hp, hq]

/-- C6, witness: a 3-row block whose middle row has a non-numeric field
parses to exactly 2 observations. -/
theorem malformed_rows_witness :
    parseBlock ["192607,1,2,3,4", "192608,1,2,xx,4", "192609,1,2,3,4"] =
      parseBlock ["192607,1,2,3,4"] ++ parseBlock ["192609,1,2,3,4"] ∧
    (parseBlock ["192607,1,2,3,4", "192608,1,2,xx,4", "192609,1,2,3,4"]).length
      = 2 := by
  have h := malformed_rows_skipped ["192607,1,2,3,4"] ["192609,1,2,3,4"]
    "192608,1,2,xx,4" (by with_unfolding_all decide)
  exact ⟨h.2.1, h.2.2 (by with_unfolding_all decide)⟩

/-! ## Claim C7: duplicate year-month keys are not deduplicated -/

/-- C7: when the monthly block contains the same well-formed row twice,
both copies appear in the parsed sequence, both count toward the 11-month
coverage threshold, and both growth factors enter the annual compounding
product (the duplicated factor appears squared). -/
theorem duplicate_months_double_count (pre post : List String) (dup : String)
    (o : MonthlyObs) (hdup : parseLine dup = some o) (col : MonthlyObs → ℚ) :
    parseBlock (pre ++ dup :: dup :: post) =
      parseBlock pre ++ o :: o :: parseBlock post ∧
    (groupOf (parseBlock (pre ++ dup :: dup :: post)) o.year).length =
      (groupOf (parseBlock pre) o.year).length + 2 +
        (groupOf (parseBlock post) o.year).length ∧
    ((groupOf (parseBlock (pre ++ dup :: dup :: post)) o.year).map
        fun x => 1 + col x / 100).prod =
      ((groupOf (parseBlock pre) o.year).map fun x => 1 + col x / 100).prod *
        (1 + col o / 100) ^ 2 *
        ((groupOf (parseBlock post) o.year).map fun x => 1 + col x / 100).prod ∧
    (11 ≤ (groupOf (parseBlock (pre ++ dup :: dup :: post)) o.year).length →
      (monthly_to_annual (parseBlock (pre ++ dup :: dup :: post)) col).lookup
          o.year =
        some (pyRound 2
          ((((groupOf (parseBlock (pre ++ dup :: dup :: post)) o.year).map
              fun x => 1 + col x / 100).prod - 1) * 100))) := by
  have hobs : parseBlock (pre ++ dup :: dup :: post) =
      parseBlock pre ++ o :: o :: parseBlock post := by
    unfold parseBlock
    rw [List.filterMap_append, List.filterMap_cons_some hdup,
      List.filterMap_cons_some hdup]
  have hgrp : groupOf (parseBlock (pre ++ dup :: dup :: post)) o.year =
      groupOf (parseBlock pre) o.year ++ o :: o ::
        groupOf (parseBlock post) o.year := by
    rw [hobs]
    unfold groupOf
    rw [List.filter_append]
    simp [List.filter_cons]
  refine ⟨hobs, ?_, ?_, ?_⟩
  · rw [hgrp]
    simp only [List.length_append, List.length_cons]
    omega
  · rw [hgrp]
    rw [List.map_append, List.prod_append, List.map_cons, List.prod_cons,
      List.map_cons, List.prod_cons]
    ring
  · intro hcov
    have hmem : o.year ∈ (parseBlock (pre ++ dup :: dup :: post)).map
        fun x => x.year := by
      rw [hobs]
      exact List.mem_map_of_mem _ (by simp)
    unfold monthly_to_annual
    rw [lookup_monthlyToAnnualT 11 _ col o.year, if_pos ⟨hmem, hcov⟩]
    unfold annualValue
    rw [foldl_compound]

/-- C7, witness: nine distinct months of 1926 plus a duplicated month
reach the 11-observation threshold only by double-counting, and the
duplicated 100% month enters the product twice: the annual return is
(2 x 2 - 1) x 100 = 300. -/
theorem duplicate_months_witness :
    (monthly_to_annual
        (parseBlock (c7Pre ++ "192605,100,0,0,0" :: "192605,100,0,0,0" :: []))
        mkt_total).lookup 1926 = some 300 := by
  have h := duplicate_months_double_count c7Pre [] "192605,100,0,0,0"
    ⟨1926, 5, 100, 0, 0, 0⟩ (by with_unfolding_all decide) mkt_total
  have h4 := h.2.2.2 (by with_unfolding_all decide)
  exact h4.trans (by with_unfolding_all decide)

/-- C9, witness: on an input whose only compounded year is 1926 while the
static tables cover only 2000, the intersection is empty and the run
aborts with the IndexError. -/
theorem empty_axis_witness :
    mainRun demoLines12 [(2000, 1)] [(2000, 2)] =
      .error "IndexError: list index out of range" := by
  exact (empty_axis_aborts demoLines12 [(2000, 1)] [(2000, 2)]).1
    (parseBlock demoLines12) (by with_unfolding_all decide)
    (by with_unfolding_all decide)
